import Mathlib

/-!
# aim_high — `server/main.go`

A shallow embedding of the single Go program of the repository and the
properties of its specification.

`main` builds a client of the vendor SDK with a compiled-in credential, sends
one compiled-in chat request through `client.Messages.New`, panics with the
error text when the call fails, and otherwise prints the text of element 0 of
the reply's content sequence with `fmt.Printf`.

Modelling decisions

* A Go `string` is a sequence of bytes: `GoString := List UInt8`.  String
  literals of the source are written `GoString.lit "..."`, their UTF-8 bytes.
* The effects of the program are threaded through a `World`: the bytes written
  to standard output and the log of calls handed to the collaborator, next to
  the parts of the process environment a Go program could read (arguments,
  environment variables, files).
* A statement either completes or panics (`Result`); `GoM` is the resulting
  state-and-panic monad, so that `main` reads like the source.
* The vendor SDK and the network are not part of the repository.  The
  collaborator is a parameter `send` (the stub of the specification): it maps
  the client, the context and the request to the pair `(message, err)` that
  `client.Messages.New` returns.
* The SDK's `NewClient` is modelled with what it does to the options: it puts
  its default options, among them the ones it reads from the environment
  variables `ANTHROPIC_BASE_URL`, `ANTHROPIC_API_KEY` and
  `ANTHROPIC_AUTH_TOKEN`, in front of the options of the caller.
-/

namespace Server

/-! ## Go strings -/

/-- A Go string: an immutable sequence of bytes. -/
abbrev GoString := List UInt8

/-- The bytes of a string literal of the source (Go source text is UTF-8). -/
def GoString.lit (s : String) : GoString := s.data.flatMap String.utf8EncodeChar

/-! ## The vendor SDK's data, as far as `main` touches it -/

namespace anthropic

/-- Modelled from the spec: the SDK's model identifier ("string enum").  The
source names the constant `ModelClaude3_5Haiku20241022`; its value lives in the
SDK, so it is kept as a name. -/
inductive Model
  | ModelClaude3_5Haiku20241022
  | Other (name : GoString)
  deriving DecidableEq, Repr

/-- Modelled from the spec: the role of a message, "one of {user, assistant}". -/
inductive MessageParamRole
  | MessageParamRoleUser
  | MessageParamRoleAssistant
  deriving DecidableEq, Repr

/-- Modelled from the spec: a request text block, `{ text: string }`. -/
structure TextBlockParam where
  Text : GoString
  deriving DecidableEq, Repr

/-- Modelled from the spec: a request content block.  The SDK's union has one
member per block kind; the source sets `OfText`. -/
inductive ContentBlockParamUnion
  | OfText (p : TextBlockParam)
  | OfOther (kind : GoString)
  deriving DecidableEq, Repr

/-- Modelled from the spec: a request message, `{ role, content }`. -/
structure MessageParam where
  Content : List ContentBlockParamUnion
  Role : MessageParamRole
  deriving DecidableEq, Repr

/-- Modelled from the spec: the request, `{ model identifier, maximum output
tokens, ordered sequence of messages }`. -/
structure MessageNewParams where
  MaxTokens : Int
  Messages : List MessageParam
  Model : Model
  deriving DecidableEq, Repr

/-- Modelled from the spec: a response text block, `{ text: string }`. -/
structure TextBlock where
  Text : GoString
  deriving DecidableEq, Repr

/-- Modelled from the spec: a response content block, "a discriminated unit of
message payload", as a tagged variant `{Text, Other...}`.  The payload of the
other kinds is never read by `main` and is left out; `Unknown` is a block whose
discriminator names no kind the SDK knows. -/
inductive ContentBlockUnion
  | Text (b : TextBlock)
  | ToolUse
  | Thinking
  | RedactedThinking
  | Unknown
  deriving DecidableEq, Repr

/-- The dynamic value behind the interface that `AsAny()` returns: a value of
one of the SDK's block types, or the nil interface. -/
inductive AnyContentBlock
  | TextBlock (b : TextBlock)
  | ToolUseBlock
  | ThinkingBlock
  | RedactedThinkingBlock
  | nil
  deriving DecidableEq, Repr

/-- Modelled from the spec: `ContentBlockUnion.AsAny()` narrows the union to
the block type its discriminator names, and yields nil when it names none. -/
def ContentBlockUnion.AsAny : ContentBlockUnion → AnyContentBlock
  | .Text b => .TextBlock b
  | .ToolUse => .ToolUseBlock
  | .Thinking => .ThinkingBlock
  | .RedactedThinking => .RedactedThinkingBlock
  | .Unknown => .nil

/-- Modelled from the spec: the response, `{ ordered sequence of content
blocks }`. -/
structure Message where
  Content : List ContentBlockUnion
  deriving DecidableEq, Repr

end anthropic

namespace option

/-- Modelled on the vendor SDK: a client option.  The source uses `WithAPIKey`,
the "credential holder" built from a secret value; the others are the options
the SDK adds by default. -/
inductive RequestOption
  | WithEnvironmentProduction
  | WithBaseURL (base : GoString)
  | WithAPIKey (key : GoString)
  | WithAuthToken (token : GoString)
  deriving DecidableEq, Repr

end option

/-- The lookup `os.LookupEnv(name)` in a list of environment variables: the
value of the first entry with that name. -/
def os.LookupEnv (environ : List (GoString × GoString)) (name : GoString) : Option GoString :=
  (environ.find? fun kv => kv.1 == name).map fun kv => kv.2

namespace anthropic

/-- Modelled from the spec: the client abstraction.  It carries the options it
was constructed with. -/
structure Client where
  Options : List option.RequestOption
  deriving DecidableEq, Repr

/-- Modelled on the vendor SDK: `DefaultClientOptions()`, the production
environment followed by one option for each of the environment variables
`ANTHROPIC_BASE_URL`, `ANTHROPIC_API_KEY` and `ANTHROPIC_AUTH_TOKEN` that is
set. -/
def DefaultClientOptions (environ : List (GoString × GoString)) : List option.RequestOption :=
  [.WithEnvironmentProduction]
    ++ (match os.LookupEnv environ (GoString.lit "ANTHROPIC_BASE_URL") with
        | some o => [.WithBaseURL o]
        | none => [])
    ++ (match os.LookupEnv environ (GoString.lit "ANTHROPIC_API_KEY") with
        | some o => [.WithAPIKey o]
        | none => [])
    ++ (match os.LookupEnv environ (GoString.lit "ANTHROPIC_AUTH_TOKEN") with
        | some o => [.WithAuthToken o]
        | none => [])

end anthropic

/-- The `context.Context` argument; the source passes `context.TODO()`. -/
inductive context.Context
  | TODO
  | Background
  deriving DecidableEq, Repr

/-- A non-nil Go `error`, identified with the text its `Error()` method returns. -/
structure GoError where
  text : GoString
  deriving DecidableEq, Repr

/-- The method `err.Error()`. -/
def GoError.Error (e : GoError) : GoString := e.text

/-- The collaborator `send(request) -> response | error` behind
`client.Messages.New`: it returns the pair `(message, err)`, where `message` is
a pointer (`none` is the nil pointer) and `err` is nil (`none`) on success. -/
abbrev Collaborator :=
  anthropic.Client → context.Context → anthropic.MessageNewParams →
    Option anthropic.Message × Option GoError

/-! ## Go run-time semantics -/

/-- The run-time panics of the Go runtime that `main` can raise. -/
inductive RuntimeError
  /-- Go reports `index out of range [index] with length length`. -/
  | indexOutOfRange (index length : Nat)
  /-- Go reports `invalid memory address or nil pointer dereference`. -/
  | nilPointerDereference
  /-- Go reports `interface conversion`: a failed type assertion; `dynamic` is
  the name of the dynamic type found, `none` for the nil interface. -/
  | interfaceConversion (dynamic : Option GoString)
  deriving DecidableEq, Repr

/-- The value a panic carries. -/
inductive PanicValue
  /-- A string handed to the builtin `panic` by the program. -/
  | string (s : GoString)
  /-- A `runtime.Error` raised by the Go runtime. -/
  | runtimeError (e : RuntimeError)
  deriving DecidableEq, Repr

/-- The process state a run of the program can observe or change. -/
structure World where
  /-- Command-line arguments. -/
  args : List GoString
  /-- Environment variables. -/
  environ : List (GoString × GoString)
  /-- Files, by path. -/
  files : List (GoString × GoString)
  /-- Bytes written to standard output so far. -/
  stdout : GoString
  /-- Calls of `client.Messages.New` made so far: client, context, request. -/
  sent : List (anthropic.Client × context.Context × anthropic.MessageNewParams)
  deriving DecidableEq, Repr

/-- How a statement ends: it completes with a value, it panics, or it leaves
the fragment of Go's library that is modelled (see `fmt.doPrintf`). -/
inductive Result (α : Type)
  | ok (a : α)
  | panic (v : PanicValue)
  | unmodelled
  deriving DecidableEq, Repr

/-- Go statements: they run in a world and end in a `Result`. -/
def GoM (α : Type) : Type := World → Result α × World

/-- Sequencing: a panic skips the rest of the function. -/
def GoM.bind {α β : Type} (m : GoM α) (f : α → GoM β) : GoM β := fun w =>
  match m w with
  | (.ok a, w1) => f a w1
  | (.panic v, w1) => (.panic v, w1)
  | (.unmodelled, w1) => (.unmodelled, w1)

instance : Monad GoM where
  pure a := fun w => (.ok a, w)
  bind := GoM.bind

/-- The builtin `panic(v)`. -/
def panic {α : Type} (v : PanicValue) : GoM α := fun w => (.panic v, w)

/-- Dereference of a pointer: `message.Content` with `message` a `*Message`. -/
def deref {α : Type} : Option α → GoM α
  | some a => pure a
  | none => panic (.runtimeError .nilPointerDereference)

/-- Slice indexing `xs[i]`, bounds-checked by the runtime. -/
def index {α : Type} (xs : List α) (i : Nat) : GoM α :=
  match xs.get? i with
  | some a => pure a
  | none => panic (.runtimeError (.indexOutOfRange i xs.length))

/-- The name of the dynamic type of a value returned by `AsAny()`. -/
def anthropic.AnyContentBlock.typeName : anthropic.AnyContentBlock → Option GoString
  | .TextBlock _ => some (GoString.lit "anthropic.TextBlock")
  | .ToolUseBlock => some (GoString.lit "anthropic.ToolUseBlock")
  | .ThinkingBlock => some (GoString.lit "anthropic.ThinkingBlock")
  | .RedactedThinkingBlock => some (GoString.lit "anthropic.RedactedThinkingBlock")
  | .nil => none

/-- The single-value type assertion `x.(anthropic.TextBlock)`: it panics when
the dynamic type of `x` is not `TextBlock`. -/
def assertTextBlock (x : anthropic.AnyContentBlock) : GoM anthropic.TextBlock :=
  match x with
  | .TextBlock b => pure b
  | other => panic (.runtimeError (.interfaceConversion other.typeName))

/-- The request leaves the program: it is handed to the collaborator, which is
recorded in the log of calls. -/
def handOver (client : anthropic.Client) (ctx : context.Context)
    (body : anthropic.MessageNewParams) : GoM Unit := fun w =>
  (.ok (), { w with sent := w.sent ++ [(client, ctx, body)] })

/-- Modelled on the vendor SDK: the call `anthropic.NewClient(opts...)`.  The
client holds the default options, read from the environment of the process,
followed by the options of the caller. -/
def anthropic.NewClient (opts : List option.RequestOption) : GoM anthropic.Client := fun w =>
  (.ok ⟨anthropic.DefaultClientOptions w.environ ++ opts⟩, w)

/-- The call `client.Messages.New(ctx, body)`: the request is handed to the
collaborator, which returns `(message, err)`. -/
def anthropic.Client.Messages.New (send : Collaborator) (client : anthropic.Client)
    (ctx : context.Context) (body : anthropic.MessageNewParams) :
    GoM (Option anthropic.Message × Option GoError) := do
  handOver client ctx body
  pure (send client ctx body)

/-! ## `fmt.Printf` -/

namespace fmt

/-- The byte `%`. -/
def percent : UInt8 := 0x25

/-- The list `type=value, type=value, ...` of left-over operands; every operand
here is a string. -/
def extraArgs : List GoString → GoString
  | [] => []
  | [x] => GoString.lit "string=" ++ x
  | x :: y :: a => GoString.lit "string=" ++ x ++ GoString.lit ", " ++ extraArgs (y :: a)

/-- What `Printf` reports for operands left over after the format is consumed:
`%!(EXTRA type=value, ...)`. -/
def extra (a : List GoString) : GoString :=
  GoString.lit "%!(EXTRA " ++ extraArgs a ++ GoString.lit ")"

/-- The formatting loop of `fmt.Printf` on string operands.  Bytes other than
`%` are copied; `%%` writes a percent sign; `%s` and `%v` write the next
operand verbatim (its bytes are not scanned for directives), or `%!s(MISSING)`
when none is left; a lone `%` at the end writes `%!(NOVERB)`; left-over
operands are reported by `extra`.  Flags, widths, precisions, argument indices
and other verbs are outside the modelled fragment: the result is `none`. -/
def doPrintf : GoString → List GoString → Option GoString
  | [], [] => some []
  | [], x :: a => some (extra (x :: a))
  | c :: rest, a =>
    if c ≠ percent then (c :: ·) <$> doPrintf rest a
    else
      match rest with
      | [] => some (GoString.lit "%!(NOVERB)")
      | verb :: rest1 =>
        if verb = percent then (percent :: ·) <$> doPrintf rest1 a
        else if verb = 0x73 ∨ verb = 0x76 then
          match a with
          | [] => ((GoString.lit "%!" ++ verb :: GoString.lit "(MISSING)") ++ ·) <$> doPrintf rest1 []
          | x :: a1 => (x ++ ·) <$> doPrintf rest1 a1
        else none

/-- The call `fmt.Printf(format, a...)`: the formatted bytes are appended to
standard output. -/
def Printf (format : GoString) (a : List GoString) : GoM Unit := fun w =>
  match doPrintf format a with
  | some out => (.ok (), { w with stdout := w.stdout ++ out })
  | none => (.unmodelled, w)

end fmt

/-! ## `main` -/

/-- The options `main` passes to `anthropic.NewClient` on lines 12–14:
`option.WithAPIKey("")`. -/
def main.opts : List option.RequestOption :=
  [option.RequestOption.WithAPIKey (GoString.lit "")]

/-- The client that lines 12–14 build in a process with the environment
variables `environ`. -/
def main.client (environ : List (GoString × GoString)) : anthropic.Client :=
  ⟨anthropic.DefaultClientOptions environ ++ main.opts⟩

/-- Lines 15–24: the `anthropic.MessageNewParams` literal passed to
`client.Messages.New`. -/
def main.body : anthropic.MessageNewParams :=
  { MaxTokens := 2024,
    Messages := [
      { Content := [.OfText { Text := GoString.lit "MCP가 뭐야?" }],
        Role := .MessageParamRoleUser }],
    Model := .ModelClaude3_5Haiku20241022 }

/-- Lines 25–28: what `main` does with the pair `(message, err)` once the call
has returned.
```go
if err != nil {
	panic(err.Error())
}
fmt.Printf("답변: %s\n", message.Content[0].AsAny().(anthropic.TextBlock).Text)
```
-/
def main.afterNew (message : Option anthropic.Message) (err : Option GoError) : GoM Unit := do
  match err with
  | some e => panic (.string e.Error)
  | none => pure ()
  let m ← deref message
  let block ← index m.Content 0
  let textBlock ← assertTextBlock block.AsAny
  fmt.Printf (GoString.lit "답변: %s\n") [textBlock.Text]

/-- The function `main` of `server/main.go`, run against the collaborator
`send`. -/
def main (send : Collaborator) : GoM Unit := do
  let client ← anthropic.NewClient main.opts
  let (message, err) ← anthropic.Client.Messages.New send client context.Context.TODO main.body
  main.afterNew message err

/-! ## The run of `main` as a state machine -/

/-- The states of a run of `main`: `Idle` before the call is issued, `Calling`
while the request is with the collaborator, `Done` after a normal return and
`Aborted` after a panic.  Each state carries the world reached. -/
inductive State
  | Idle (w : World)
  | Calling (w : World)
  | Done (w : World)
  | Aborted (v : PanicValue) (w : World)
  deriving DecidableEq, Repr

/-- The world a state carries. -/
def State.world : State → World
  | .Idle w => w
  | .Calling w => w
  | .Done w => w
  | .Aborted _ w => w

/-- Whether a state is `Done`. -/
def State.isDone : State → Bool
  | .Done _ => true
  | _ => false

/-- Whether a state is `Aborted`. -/
def State.isAborted : State → Bool
  | .Aborted _ _ => true
  | _ => false

/-- The transitions of a run of `main`.  From `Idle` the client and the request
are built and the request is handed to the collaborator (lines 12–24); from
`Calling` the reply of the collaborator arrives and lines 25–28 run; `Done` and
`Aborted` have no transition. -/
def step (send : Collaborator) : State → Option State
  | .Idle w =>
    match handOver (main.client w.environ) context.Context.TODO main.body w with
    | (.ok (), w1) => some (.Calling w1)
    | (.panic v, w1) => some (.Aborted v w1)
    | (.unmodelled, _) => none
  | .Calling w =>
    match main.afterNew (send (main.client w.environ) context.Context.TODO main.body).1
        (send (main.client w.environ) context.Context.TODO main.body).2 w with
    | (.ok (), w1) => some (.Done w1)
    | (.panic v, w1) => some (.Aborted v w1)
    | (.unmodelled, _) => none
  | .Done _ => none
  | .Aborted _ _ => none

/-! ## Vocabulary of the properties -/

/-- The byte of the newline character. -/
def newline : UInt8 := 0x0A

/-- The bytes written to standard output between the worlds `w0` and `w1`. -/
def written (w0 w1 : World) : GoString := w1.stdout.drop w0.stdout.length

/-- The calls handed to the collaborator between the worlds `w0` and `w1`. -/
def calls (w0 w1 : World) :
    List (anthropic.Client × context.Context × anthropic.MessageNewParams) :=
  w1.sent.drop w0.sent.length

/-- The context and the request of each call handed to the collaborator between
the worlds `w0` and `w1`, without the client. -/
def requests (w0 w1 : World) : List (context.Context × anthropic.MessageNewParams) :=
  (calls w0 w1).map fun c => c.2

/-- Console output that is exactly one line: it ends with a newline and holds
no other newline. -/
def isOneLine (out : GoString) : Bool :=
  out.getLast? == some newline && out.count newline == 1

/-- A controlled failure: the run ends with an error the program itself
raises, a `panic` statement with a message, as opposed to a crash inside the Go
runtime (an index out of range, a nil dereference, a failed type assertion). -/
def Result.isControlledFailure {α : Type} : Result α → Bool
  | .panic (.string _) => true
  | _ => false

/-- A crash on an index expression: the Go runtime's index-out-of-range panic. -/
def Result.isIndexCrash {α : Type} : Result α → Bool
  | .panic (.runtimeError (.indexOutOfRange _ _)) => true
  | _ => false

/-- The reply shape under which `main` prints: no error, a response, a text
block at element 0. -/
def printable : Option anthropic.Message → Option GoError → Bool
  | some ⟨.Text _ :: _⟩, none => true
  | _, _ => false

/-- A fresh process: no arguments, environment or files, nothing printed, no
call made. -/
def World.initial : World := ⟨[], [], [], [], []⟩

/-- A collaborator stub that answers every request with the same pair. -/
def stub (message : Option anthropic.Message) (err : Option GoError) : Collaborator :=
  fun _ _ _ => (message, err)

/-! ## Auxiliary lemmas: what `main` computes -/

/-- The function `main` hands the fixed request over and continues with lines 25–28. -/
theorem main_eq (send : Collaborator) (w : World) :
    main send w =
      main.afterNew (send (main.client w.environ) context.Context.TODO main.body).1
        (send (main.client w.environ) context.Context.TODO main.body).2
        { w with sent := w.sent ++ [(main.client w.environ, context.Context.TODO, main.body)] } := rfl

/-- A non-nil `err` makes lines 25–28 panic with its text. -/
theorem afterNew_err (message : Option anthropic.Message) (e : GoError) (w : World) :
    main.afterNew message (some e) w = (.panic (.string e.Error), w) := rfl

/-- A nil `message` without an error is dereferenced: a run-time panic. -/
theorem afterNew_nil (w : World) :
    main.afterNew none none w = (.panic (.runtimeError .nilPointerDereference), w) := rfl

/-- An empty content sequence makes `message.Content[0]` panic. -/
theorem afterNew_empty (w : World) :
    main.afterNew (some ⟨[]⟩) none w = (.panic (.runtimeError (.indexOutOfRange 0 0)), w) := rfl

/-- A text block at element 0 is printed after the label, followed by a newline. -/
theorem afterNew_text (X : GoString) (rest : List anthropic.ContentBlockUnion) (w : World) :
    main.afterNew (some ⟨.Text ⟨X⟩ :: rest⟩) none w =
      (.ok (), { w with stdout := w.stdout ++ (GoString.lit "답변: " ++ X ++ GoString.lit "\n") }) :=
  rfl

/-- Another block at element 0 makes the type assertion panic. -/
theorem afterNew_other (b : anthropic.ContentBlockUnion)
    (rest : List anthropic.ContentBlockUnion) (w : World) (hb : ∀ t, b ≠ .Text t) :
    main.afterNew (some ⟨b :: rest⟩) none w =
      (.panic (.runtimeError (.interfaceConversion b.AsAny.typeName)), w) := by
  cases b with
  | Text t => exact absurd rfl (hb t)
  | _ => rfl

/-- A reply is printable exactly when it carries no error and a response whose
content sequence starts with a text block. -/
theorem printable_iff (message : Option anthropic.Message) (err : Option GoError) :
    printable message err = true ↔
      ∃ m X rest, message = some m ∧ err = none ∧ m.Content = .Text ⟨X⟩ :: rest := by
  constructor
  · intro h
    match message, err, h with
    | some ⟨.Text ⟨X⟩ :: rest⟩, none, _ => exact ⟨_, X, rest, rfl, rfl, rfl⟩
  · rintro ⟨⟨c⟩, X, rest, rfl, rfl, hc⟩
    simp only at hc
    subst hc
    rfl

/-- Lines 25–28 either print the formatted reply and return, exactly for a
printable reply, or panic and leave the world as it was; which of the two, and
the panic value, depend on the reply alone. -/
theorem afterNew_cases (message : Option anthropic.Message) (err : Option GoError) :
    (printable message err = true ∧ ∃ X rest, message = some ⟨.Text ⟨X⟩ :: rest⟩ ∧
        ∀ w, main.afterNew message err w =
          (.ok (), { w with stdout := w.stdout ++ (GoString.lit "답변: " ++ X ++ GoString.lit "\n") }))
      ∨ (printable message err = false ∧
          ∃ v, ∀ w, main.afterNew message err w = (.panic v, w)) := by
  cases err with
  | some e =>
    refine Or.inr ⟨?_, _, afterNew_err message e⟩
    cases message with
    | none => rfl
    | some m =>
      obtain ⟨c⟩ := m
      cases c with
      | nil => rfl
      | cons b rest => cases b <;> rfl
  | none =>
    cases message with
    | none => exact Or.inr ⟨rfl, _, afterNew_nil⟩
    | some m =>
      obtain ⟨content⟩ := m
      cases content with
      | nil => exact Or.inr ⟨rfl, _, afterNew_empty⟩
      | cons b rest =>
        by_cases hb : ∃ t, b = .Text t
        · obtain ⟨⟨X⟩, rfl⟩ := hb
          exact Or.inl ⟨rfl, X, rest, rfl, afterNew_text X rest⟩
        · refine Or.inr ⟨?_, _, fun w => afterNew_other b rest w (fun t ht => hb ⟨t, ht⟩)⟩
          cases b with
          | Text t => exact absurd ⟨t, rfl⟩ hb
          | _ => rfl

/-- A run of `main` logs the one call and then either prints the formatted
reply and returns, exactly for a printable reply, or panics without printing;
which of the two, and the panic value, depend on the reply alone. -/
theorem main_cases (send : Collaborator) (environ : List (GoString × GoString)) :
    (printable (send (main.client environ) context.Context.TODO main.body).1
        (send (main.client environ) context.Context.TODO main.body).2 = true ∧
      ∃ X rest,
        (send (main.client environ) context.Context.TODO main.body).1
          = some ⟨.Text ⟨X⟩ :: rest⟩ ∧
        ∀ w : World, w.environ = environ → main send w = (.ok (),
          { w with
            stdout := w.stdout ++ (GoString.lit "답변: " ++ X ++ GoString.lit "\n"),
            sent := w.sent ++ [(main.client environ, context.Context.TODO, main.body)] }))
      ∨ (printable (send (main.client environ) context.Context.TODO main.body).1
            (send (main.client environ) context.Context.TODO main.body).2 = false ∧
          ∃ v, ∀ w : World, w.environ = environ → main send w = (.panic v,
            { w with sent := w.sent ++ [(main.client environ, context.Context.TODO, main.body)] })) := by
  rcases afterNew_cases (send (main.client environ) context.Context.TODO main.body).1
      (send (main.client environ) context.Context.TODO main.body).2 with
    ⟨hp, X, rest, hm, h⟩ | ⟨hp, v, h⟩
  · exact Or.inl ⟨hp, X, rest, hm, fun w hw => by subst hw; rw [main_eq, h]⟩
  · exact Or.inr ⟨hp, v, fun w hw => by subst hw; rw [main_eq, h]⟩

/-- The log of calls after a run of `main`: one call more, with the client
built in this environment and the fixed request. -/
theorem main_sent (send : Collaborator) (w : World) :
    (main send w).2.sent = w.sent ++ [(main.client w.environ, context.Context.TODO, main.body)] := by
  rcases main_cases send w.environ with ⟨-, X, rest, -, h⟩ | ⟨-, v, h⟩ <;> rw [h w rfl]

/-- The calls made during a run of `main`: one, with the fixed request. -/
theorem main_calls (send : Collaborator) (w : World) :
    calls w (main send w).2 = [(main.client w.environ, context.Context.TODO, main.body)] := by
  simp [calls, main_sent]

/-- A run of `main` leaves the environment variables as they were. -/
theorem main_environ (send : Collaborator) (w : World) :
    (main send w).2.environ = w.environ := by
  rcases main_cases send w.environ with ⟨-, X, rest, -, h⟩ | ⟨-, v, h⟩ <;> rw [h w rfl]

/-- The context and request handed over during a run of `main`: the fixed ones. -/
theorem main_requests (send : Collaborator) (w : World) :
    requests w (main send w).2 = [(context.Context.TODO, main.body)] := by
  simp [requests, main_calls]

/-- Bytes appended to standard output are the bytes written. -/
theorem written_append (w0 w1 : World) (out : GoString) (h : w1.stdout = w0.stdout ++ out) :
    written w0 w1 = out := by
  simp [written, h]

/-- The formatted reply is one line when the reply text holds no newline. -/
theorem isOneLine_formatted (X : GoString) (hX : newline ∉ X) :
    isOneLine (GoString.lit "답변: " ++ X ++ GoString.lit "\n") = true := by
  have hl : List.count newline (GoString.lit "답변: ") = 0 := by decide
  have hx : List.count newline X = 0 := List.count_eq_zero.mpr hX
  have hn : GoString.lit "\n" = [newline] := rfl
  rw [hn]
  simp [isOneLine, List.count_append, hl, hx]

/-- C1. When the collaborator answers the request of `main` with success and a
response whose content sequence is exactly one text block with text `X`, `main`
returns normally and the bytes it writes to standard output are the label
`답변: `, then `X` verbatim (whatever bytes `X` holds, percent signs included),
then one newline. -/
theorem main_prints_reply (send : Collaborator) (w : World) (X : GoString)
    (h : send (main.client w.environ) context.Context.TODO main.body = (some ⟨[.Text ⟨X⟩]⟩, none)) :
    (main send w).1 = .ok () ∧
      (main send w).2.stdout = w.stdout ++ (GoString.lit "답변: " ++ X ++ GoString.lit "\n") ∧
      written w (main send w).2 = GoString.lit "답변: " ++ X ++ GoString.lit "\n" := by
  rw [main_eq, h, afterNew_text]
  simp [written]

/-- Witness of C1: a reply text that itself holds the directive `%s`. -/
theorem main_prints_reply_witness :
    stub (some ⟨[.Text ⟨GoString.lit "100%s"⟩]⟩) none (main.client World.initial.environ) context.Context.TODO main.body
        = (some ⟨[.Text ⟨GoString.lit "100%s"⟩]⟩, none) ∧
      (main (stub (some ⟨[.Text ⟨GoString.lit "100%s"⟩]⟩) none) World.initial).1 = .ok () ∧
      (main (stub (some ⟨[.Text ⟨GoString.lit "100%s"⟩]⟩) none) World.initial).2.stdout
        = World.initial.stdout ++ (GoString.lit "답변: " ++ GoString.lit "100%s" ++ GoString.lit "\n") ∧
      written World.initial (main (stub (some ⟨[.Text ⟨GoString.lit "100%s"⟩]⟩) none) World.initial).2
        = GoString.lit "답변: " ++ GoString.lit "100%s" ++ GoString.lit "\n" :=
  ⟨rfl, main_prints_reply _ World.initial (GoString.lit "100%s") rfl⟩

/-- C2. When the collaborator returns an error `e`, whatever response value
comes with it, `main` panics with exactly the text of `e` as the panic value and
writes nothing to standard output. -/
theorem main_panics_with_error_text (send : Collaborator) (w : World)
    (message : Option anthropic.Message) (e : GoError)
    (h : send (main.client w.environ) context.Context.TODO main.body = (message, some e)) :
    (main send w).1 = .panic (.string e.Error) ∧
      (main send w).2.stdout = w.stdout ∧ written w (main send w).2 = [] := by
  rw [main_eq, h, afterNew_err]
  simp [written]

/-- Witness of C2: an error that comes together with a well-formed response. -/
theorem main_panics_with_error_text_witness :
    stub (some ⟨[.Text ⟨GoString.lit "hi"⟩]⟩) (some ⟨GoString.lit "401 Unauthorized"⟩)
        (main.client World.initial.environ) context.Context.TODO main.body
        = (some ⟨[.Text ⟨GoString.lit "hi"⟩]⟩, some ⟨GoString.lit "401 Unauthorized"⟩) ∧
      (main (stub (some ⟨[.Text ⟨GoString.lit "hi"⟩]⟩) (some ⟨GoString.lit "401 Unauthorized"⟩))
          World.initial).1 = .panic (.string (GoError.Error ⟨GoString.lit "401 Unauthorized"⟩)) ∧
      (main (stub (some ⟨[.Text ⟨GoString.lit "hi"⟩]⟩) (some ⟨GoString.lit "401 Unauthorized"⟩))
          World.initial).2.stdout = World.initial.stdout ∧
      written World.initial
        (main (stub (some ⟨[.Text ⟨GoString.lit "hi"⟩]⟩) (some ⟨GoString.lit "401 Unauthorized"⟩))
          World.initial).2 = [] :=
  ⟨rfl, main_panics_with_error_text _ World.initial _ _ rfl⟩

/-- C3. On every invocation the request handed to the collaborator has exactly
one message, with role user and exactly one content block, a text block holding
the literal prompt; the model is `ModelClaude3_5Haiku20241022` and the token
limit is 2024.  The request depends on nothing: any two invocations, also two
in a row, hand over identical requests. -/
theorem main_request_fixed :
    (∀ (send : Collaborator) (w : World),
      ∃ client ctx request, calls w (main send w).2 = [(client, ctx, request)] ∧
        request.Messages.length = 1 ∧
        (∀ m ∈ request.Messages, m.Role = .MessageParamRoleUser ∧
          m.Content = [.OfText ⟨GoString.lit "MCP가 뭐야?"⟩]) ∧
        request.Model = .ModelClaude3_5Haiku20241022 ∧
        request.MaxTokens = 2024 ∧
        request = ⟨2024, [⟨[.OfText ⟨GoString.lit "MCP가 뭐야?"⟩], .MessageParamRoleUser⟩],
          .ModelClaude3_5Haiku20241022⟩) ∧
    (∀ (send1 send2 : Collaborator) (w1 w2 : World),
      requests w1 (main send1 w1).2 = requests w2 (main send2 w2).2) ∧
    (∀ (send1 send2 : Collaborator) (w : World),
      ∃ r, calls w (main send2 (main send1 w).2).2 = [r, r]) := by
  refine ⟨fun send w =>
      ⟨main.client w.environ, .TODO, main.body, main_calls send w, rfl, ?_, rfl, rfl, rfl⟩,
    fun send1 send2 w1 w2 => by rw [main_requests, main_requests],
    fun send1 send2 w => ⟨(main.client w.environ, .TODO, main.body), ?_⟩⟩
  · intro m hm
    simp [main.body] at hm
    subst hm
    exact ⟨rfl, rfl⟩
  · simp [calls, main_sent, main_environ]

/-- C5. Whatever the collaborator does, a run of `main` calls its send
operation exactly once: the log of calls grows by exactly one entry, after a
success as well as after an error. -/
theorem main_calls_once (send : Collaborator) (w : World) :
    (calls w (main send w).2).length = 1 ∧
      (main send w).2.sent.length = w.sent.length + 1 := by
  simp [main_calls, main_sent]

/-- C7. Two successful replies with non-empty content sequences and the same
first block give the same run of `main`: the same result (normal return or the
same panic value) and the same world, standard output included, whatever blocks
follow the first one. -/
theorem main_first_block_only (send1 send2 : Collaborator) (w : World)
    (m1 m2 : anthropic.Message) (b : anthropic.ContentBlockUnion)
    (rest1 rest2 : List anthropic.ContentBlockUnion)
    (h1 : send1 (main.client w.environ) context.Context.TODO main.body = (some m1, none))
    (h2 : send2 (main.client w.environ) context.Context.TODO main.body = (some m2, none))
    (hc1 : m1.Content = b :: rest1) (hc2 : m2.Content = b :: rest2) :
    main send1 w = main send2 w := by
  obtain ⟨c1⟩ := m1
  obtain ⟨c2⟩ := m2
  simp only at hc1 hc2
  subst hc1 hc2
  rw [main_eq, main_eq, h1, h2]
  by_cases hb : ∃ t, b = .Text t
  · obtain ⟨⟨X⟩, rfl⟩ := hb
    simp only [afterNew_text]
  · have hb1 : ∀ t, b ≠ .Text t := fun t ht => hb ⟨t, ht⟩
    simp only [afterNew_other _ _ _ hb1]

/-- Witness of C7: a text block followed by nothing, and by a tool-use block
and a second text block. -/
theorem main_first_block_only_witness :
    main (stub (some ⟨[.Text ⟨GoString.lit "hi"⟩]⟩) none) World.initial =
      main (stub (some ⟨[.Text ⟨GoString.lit "hi"⟩, .ToolUse, .Text ⟨GoString.lit "yo"⟩]⟩) none)
        World.initial :=
  main_first_block_only _ _ World.initial ⟨[.Text ⟨GoString.lit "hi"⟩]⟩
    ⟨[.Text ⟨GoString.lit "hi"⟩, .ToolUse, .Text ⟨GoString.lit "yo"⟩]⟩
    (.Text ⟨GoString.lit "hi"⟩) [] [.ToolUse, .Text ⟨GoString.lit "yo"⟩] rfl rfl rfl rfl

/-- C8. When the reply is a success whose content sequence is non-empty and
whose first element is not a text block, the type assertion fails: `main`
panics with the runtime's interface-conversion error and writes nothing to
standard output, also when a later element is a text block. -/
theorem main_non_text_first_aborts (send : Collaborator) (w : World)
    (m : anthropic.Message) (b : anthropic.ContentBlockUnion)
    (rest : List anthropic.ContentBlockUnion)
    (h : send (main.client w.environ) context.Context.TODO main.body = (some m, none))
    (hc : m.Content = b :: rest) (hb : ∀ t, b ≠ .Text t) :
    (main send w).1 = .panic (.runtimeError (.interfaceConversion b.AsAny.typeName)) ∧
      (main send w).2.stdout = w.stdout ∧ written w (main send w).2 = [] := by
  obtain ⟨c⟩ := m
  simp only at hc
  subst hc
  rw [main_eq, h, afterNew_other _ _ _ hb]
  simp [written]

/-- Witness of C8: a tool-use block first, a text block second. -/
theorem main_non_text_first_aborts_witness :
    (main (stub (some ⟨[.ToolUse, .Text ⟨GoString.lit "hi"⟩]⟩) none) World.initial).1 =
        .panic (.runtimeError
          (.interfaceConversion (some (GoString.lit "anthropic.ToolUseBlock")))) ∧
      (main (stub (some ⟨[.ToolUse, .Text ⟨GoString.lit "hi"⟩]⟩) none) World.initial).2.stdout
        = World.initial.stdout ∧
      written World.initial
        (main (stub (some ⟨[.ToolUse, .Text ⟨GoString.lit "hi"⟩]⟩) none) World.initial).2 = [] :=
  main_non_text_first_aborts _ World.initial ⟨[.ToolUse, .Text ⟨GoString.lit "hi"⟩]⟩ .ToolUse
    [.Text ⟨GoString.lit "hi"⟩] rfl rfl (fun t ht => by cases ht)

/-- C4, as the code behaves. When the reply is a success whose content sequence
is empty, `main` aborts on the element-0 access with the Go runtime's
index-out-of-range panic (index 0, length 0), which is a crash inside the
runtime and not an error the program defines, and it writes nothing to standard
output. -/
theorem main_empty_content_index_panic (send : Collaborator) (w : World)
    (m : anthropic.Message)
    (h : send (main.client w.environ) context.Context.TODO main.body = (some m, none))
    (hc : m.Content = []) :
    (main send w).1 = .panic (.runtimeError (.indexOutOfRange 0 0)) ∧
      (main send w).1.isIndexCrash = true ∧
      (main send w).1.isControlledFailure = false ∧
      (main send w).2.stdout = w.stdout ∧ written w (main send w).2 = [] := by
  obtain ⟨c⟩ := m
  simp only at hc
  subst hc
  rw [main_eq, h, afterNew_empty]
  simp [written, Result.isIndexCrash, Result.isControlledFailure]

/-- Witness of the amended C4: the stub that answers with an empty content
sequence. -/
theorem main_empty_content_index_panic_witness :
    (main (stub (some ⟨[]⟩) none) World.initial).1
        = .panic (.runtimeError (.indexOutOfRange 0 0)) ∧
      (main (stub (some ⟨[]⟩) none) World.initial).1.isIndexCrash = true ∧
      (main (stub (some ⟨[]⟩) none) World.initial).1.isControlledFailure = false ∧
      (main (stub (some ⟨[]⟩) none) World.initial).2.stdout = World.initial.stdout ∧
      written World.initial (main (stub (some ⟨[]⟩) none) World.initial).2 = [] :=
  main_empty_content_index_panic _ World.initial ⟨[]⟩ rfl rfl

/-- C4 as stated fails: the stub that answers with success and an empty content
sequence makes `main` crash on `message.Content[0]` with the runtime's
index-out-of-range panic, so it is not the case that every such reply ends in a
controlled failure without a crash on the element-0 access. -/
theorem main_empty_content_crash_counterexample :
    (main (stub (some ⟨[]⟩) none) World.initial).1
        = .panic (.runtimeError (.indexOutOfRange 0 0)) ∧
      ¬ (∀ (send : Collaborator) (w : World),
        send (main.client w.environ) context.Context.TODO main.body = (some ⟨[]⟩, none) →
          (main send w).1.isControlledFailure = true ∧ (main send w).1.isIndexCrash = false ∧
            (main send w).2.stdout = w.stdout) := by
  refine ⟨rfl, fun hall => ?_⟩
  have h := (hall (stub (some ⟨[]⟩) none) World.initial rfl).2.1
  revert h
  decide

/-- C6, as the code behaves. When the reply is a success whose first content
block is a text block with text `X`, and `X` holds no newline byte, `main`
returns normally and its console output is exactly one line. -/
theorem main_output_one_line (send : Collaborator) (w : World)
    (m : anthropic.Message) (X : GoString) (rest : List anthropic.ContentBlockUnion)
    (h : send (main.client w.environ) context.Context.TODO main.body = (some m, none))
    (hc : m.Content = .Text ⟨X⟩ :: rest) (hX : newline ∉ X) :
    (main send w).1 = .ok () ∧ isOneLine (written w (main send w).2) = true := by
  obtain ⟨c⟩ := m
  simp only at hc
  subst hc
  rw [main_eq, h, afterNew_text]
  refine ⟨rfl, ?_⟩
  have hw : written w
      { w with
        stdout := w.stdout ++ (GoString.lit "답변: " ++ X ++ GoString.lit "\n"),
        sent := w.sent ++ [(main.client w.environ, context.Context.TODO, main.body)] }
      = (GoString.lit "답변: " ++ X) ++ [newline] := written_append _ _ _ rfl
  have hl : List.count newline (GoString.lit "답변: ") = 0 := by decide
  have hx : List.count newline X = 0 := List.count_eq_zero.mpr hX
  show isOneLine (written w _) = true
  rw [hw]
  simp [isOneLine, List.count_append, hl, hx]

/-- Witness of the amended C6: a reply without a newline, followed by another
block. -/
theorem main_output_one_line_witness :
    (main (stub (some ⟨[.Text ⟨GoString.lit "hello"⟩, .Thinking]⟩) none) World.initial).1 = .ok () ∧
      isOneLine (written World.initial
        (main (stub (some ⟨[.Text ⟨GoString.lit "hello"⟩, .Thinking]⟩) none) World.initial).2)
        = true :=
  main_output_one_line _ World.initial ⟨[.Text ⟨GoString.lit "hello"⟩, .Thinking]⟩
    (GoString.lit "hello") [.Thinking] rfl rfl (by decide)

/-- C6 as stated fails: for the reply text `a\nb`, which holds a newline, `main`
returns normally and its console output, `답변: a\nb\n`, is two lines. -/
theorem main_output_two_lines_counterexample :
    (main (stub (some ⟨[.Text ⟨GoString.lit "a\nb"⟩]⟩) none) World.initial).1 = .ok () ∧
      written World.initial (main (stub (some ⟨[.Text ⟨GoString.lit "a\nb"⟩]⟩) none) World.initial).2
        = GoString.lit "답변: a\nb\n" ∧
      List.count newline (written World.initial
        (main (stub (some ⟨[.Text ⟨GoString.lit "a\nb"⟩]⟩) none) World.initial).2) = 2 ∧
      isOneLine (written World.initial
        (main (stub (some ⟨[.Text ⟨GoString.lit "a\nb"⟩]⟩) none) World.initial).2) = false := by
  decide

/-- C9, as the code behaves. A run of `main` is the state machine
Idle → Calling → {Done | Aborted}.  From `Idle` one transition leads to
`Calling` (the request is with the collaborator), from there one transition
leads to a terminal state `t`, which is exactly one of `Done` and `Aborted` and
is the outcome of `main`.  The run ends in `Done`, with the formatted reply
`답변: X` and a newline printed, exactly when the collaborator returned no error
and a response whose content sequence starts with a text block, of text `X`;
what is printed is one line when `X` holds no newline.  In every other case the
run ends in `Aborted` with nothing printed.  No transition leaves `Done` or
`Aborted`. -/
theorem main_state_machine (send : Collaborator) (w : World) :
    ∃ t : State,
      step send (.Idle w) = some (.Calling
        { w with sent := w.sent ++ [(main.client w.environ, context.Context.TODO, main.body)] }) ∧
      step send (.Calling
        { w with sent := w.sent ++ [(main.client w.environ, context.Context.TODO, main.body)] })
        = some t ∧
      step send t = none ∧
      (t.isDone != t.isAborted) = true ∧
      ((t = .Done (main send w).2 ∧ (main send w).1 = .ok ()) ∨
        ∃ v, t = .Aborted v (main send w).2 ∧ (main send w).1 = .panic v) ∧
      (t.isDone = true ↔
        ∃ m X rest, send (main.client w.environ) context.Context.TODO main.body = (some m, none) ∧
          m.Content = .Text ⟨X⟩ :: rest) ∧
      (t.isDone = true →
        ∃ m X rest, send (main.client w.environ) context.Context.TODO main.body = (some m, none) ∧
          m.Content = .Text ⟨X⟩ :: rest ∧
          written w t.world = GoString.lit "답변: " ++ X ++ GoString.lit "\n" ∧
          (newline ∉ X → isOneLine (written w t.world) = true)) ∧
      (t.isDone = false → t.isAborted = true ∧ written w t.world = []) ∧
      (∀ s : State, s.isDone = true ∨ s.isAborted = true → step send s = none) := by
  have hterm : ∀ s : State, s.isDone = true ∨ s.isAborted = true → step send s = none := by
    intro s hs
    cases s <;> simp [State.isDone, State.isAborted] at hs <;> rfl
  have hp : printable (send (main.client w.environ) context.Context.TODO main.body).1
      (send (main.client w.environ) context.Context.TODO main.body).2 = true ↔
      ∃ m X rest, send (main.client w.environ) context.Context.TODO main.body = (some m, none) ∧
        m.Content = .Text ⟨X⟩ :: rest := by
    rw [printable_iff]
    constructor
    · rintro ⟨m, X, rest, h1, h2, hc⟩
      exact ⟨m, X, rest, Prod.ext h1 h2, hc⟩
    · rintro ⟨m, X, rest, h, hc⟩
      exact ⟨m, X, rest, by rw [h], by rw [h], hc⟩
  rcases main_cases send w.environ with ⟨hpr, X, rest, hm, h⟩ | ⟨hpr, v, h⟩
  · refine ⟨.Done (main send w).2, rfl, ?_, rfl, rfl, Or.inl ⟨rfl, by rw [h w rfl]⟩, ?_, ?_, ?_,
      hterm⟩
    · have h1 := h w rfl
      rw [main_eq] at h1
      simp only [step, h1, h w rfl]
    · exact ⟨fun _ => hp.mp hpr, fun _ => rfl⟩
    · intro _
      obtain ⟨m, X1, rest1, hs, hc⟩ := hp.mp hpr
      rw [hs] at hm
      simp only [Option.some.injEq] at hm
      subst hm
      simp only [anthropic.ContentBlockUnion.Text.injEq, anthropic.TextBlock.mk.injEq,
        List.cons.injEq] at hc
      obtain ⟨rfl, -⟩ := hc
      have hw : written w (State.Done (main send w).2).world
          = GoString.lit "답변: " ++ X ++ GoString.lit "\n" :=
        written_append _ _ _ (by rw [h w rfl]; rfl)
      refine ⟨_, X, rest, hs, rfl, hw, fun hX => ?_⟩
      rw [hw]
      exact isOneLine_formatted X hX
    · intro hd
      simp [State.isDone] at hd
  · refine ⟨.Aborted v (main send w).2, rfl, ?_, rfl, rfl, Or.inr ⟨v, rfl, by rw [h w rfl]⟩,
      ?_, ?_, ?_, hterm⟩
    · have h1 := h w rfl
      rw [main_eq] at h1
      simp only [step, h1, h w rfl]
    · constructor
      · intro hd
        simp [State.isDone] at hd
      · intro hex
        rw [hp.mpr hex] at hpr
        cases hpr
    · intro hd
      simp [State.isDone] at hd
    · intro _
      exact ⟨rfl, written_append _ _ _ (by rw [h w rfl]; simp [State.world])⟩

/-- C9 as stated fails: for the reply text `a\nb` the run goes from `Idle` through
`Calling` to `Done`, and what it printed, `답변: a\nb` and a newline, is two
lines, not one formatted line. -/
theorem main_state_machine_two_lines_counterexample :
    (step (stub (some ⟨[.Text ⟨GoString.lit "a\nb"⟩]⟩) none) (.Idle World.initial)).bind
        (step (stub (some ⟨[.Text ⟨GoString.lit "a\nb"⟩]⟩) none))
      = some (.Done
          { World.initial with
            stdout := GoString.lit "답변: a\nb\n",
            sent := [(main.client [], context.Context.TODO, main.body)] }) ∧
      isOneLine (written World.initial
          { World.initial with
            stdout := GoString.lit "답변: a\nb\n",
            sent := [(main.client [], context.Context.TODO, main.body)] }) = false := by
  decide

end Server
